import Mathlib

/-!
Verification of the crop/pad parameter-sampling engine of
`albumentations/augmentations/crops/transforms.py`.

The Python code is shallowly embedded: machine ints become `ℤ`, Python
floats become `ℚ` (float arithmetic is modelled exactly over the
rationals), `random.random()` / `random.randint` draws are injected as
explicit arguments constrained by the documented draw ranges, and
functions that can `raise` return `Option`.
-/

set_option maxRecDepth 10000

/-- Python `int(x)` applied to a float: truncation toward zero. -/
def pyInt (q : ℚ) : ℤ :=
  if q < 0 then ⌈q⌉ else ⌊q⌋

/-- Python 3 `round(x)` on a float: round half to even. -/
def pythonRound (q : ℚ) : ℤ :=
  if q - ⌊q⌋ < 1 / 2 then ⌊q⌋
  else if (1 : ℚ) / 2 < q - ⌊q⌋ then ⌊q⌋ + 1
  else if ⌊q⌋ % 2 = 0 then ⌊q⌋ else ⌊q⌋ + 1

/-- `np.clip(v, lo, hi)` on rationals: `min hi (max v lo)`. -/
def clipQ (v lo hi : ℚ) : ℚ := min hi (max v lo)

/-- `np.clip(v, lo, hi)` on integers. -/
def clipI (v lo hi : ℤ) : ℤ := min hi (max v lo)

/-- The `regain // 2` share of `CropAndPad.__prevent_zero`, where
`regain = abs(max_val) + 1`. -/
def pzRegain2 (maxVal : ℤ) : ℤ := (|maxVal| + 1) / 2

/-- The first side's share in `CropAndPad.__prevent_zero`: `regain // 2`,
incremented by one when `regain` is odd (`if regain1 + regain2 < regain`). -/
def pzRegain1 (maxVal : ℤ) : ℤ :=
  if pzRegain2 maxVal + pzRegain2 maxVal < |maxVal| + 1 then pzRegain2 maxVal + 1
  else pzRegain2 maxVal

/-- `CropAndPad.__prevent_zero(val1, val2, max_val)`: split the regain
between the two opposing sides, shifting any excess over a side's crop
amount to the other side, then subtract each side's share. -/
def preventZeroPair (val1 val2 maxVal : ℤ) : ℤ × ℤ :=
  if pzRegain1 maxVal > val1 then
    (val1 - val1, val2 - (pzRegain2 maxVal + (pzRegain1 maxVal - val1)))
  else if pzRegain2 maxVal > val2 then
    (val1 - (pzRegain1 maxVal + (pzRegain2 maxVal - val2)), val2 - val2)
  else
    (val1 - pzRegain1 maxVal, val2 - pzRegain2 maxVal)

/-- `CropAndPad._prevent_zero(crop_params, height, width)` on the per-side
crop amounts `(top, right, bottom, left)`: rebalance an axis whenever the
remaining extent would drop below 1, then clamp every side at 0. -/
def preventZero (top right bottom left height width : ℤ) : ℤ × ℤ × ℤ × ℤ :=
  let tb := if height - (top + bottom) < 1 then preventZeroPair top bottom height
            else (top, bottom)
  let lr := if width - (left + right) < 1 then preventZeroPair left right width
            else (left, right)
  (max tb.1 0, max lr.2 0, max tb.2 0, max lr.1 0)

/-- The geometry part of the dictionary returned by
`CropAndPad.get_params_dependent_on_targets`. -/
structure CropAndPadOut where
  crop_params : Option (ℤ × ℤ × ℤ × ℤ)
  pad_params : Option (ℤ × ℤ × ℤ × ℤ)
  result_rows : ℤ
  result_cols : ℤ

/-- `CropAndPad.get_params_dependent_on_targets` after the per-side signed
amounts `(n0, n1, n2, n3) = (top, right, bottom, left)` have been sampled
(`_get_px_params`, or `_get_percent_params` scaled by the frame):
positive parts pad, negative parts crop through `_prevent_zero`, the crop
rectangle is `[left, top, width - right, height - bottom]`. -/
def cropAndPadParams (n0 n1 n2 n3 height width : ℤ) : CropAndPadOut :=
  let padTop := max n0 0
  let padRight := max n1 0
  let padBottom := max n2 0
  let padLeft := max n3 0
  let c := preventZero (-(min n0 0)) (-(min n1 0)) (-(min n2 0)) (-(min n3 0)) height width
  let cropTop := c.1
  let cropRight := c.2.1
  let cropBottom := c.2.2.1
  let cropLeft := c.2.2.2
  let resultRows := (height - cropBottom) - cropTop
  let resultCols := (width - cropRight) - cropLeft
  let cropOpt := if resultCols = width ∧ resultRows = height then none
                 else some (cropLeft, cropTop, width - cropRight, height - cropBottom)
  if padTop ≠ 0 ∨ padBottom ≠ 0 ∨ padLeft ≠ 0 ∨ padRight ≠ 0 then
    { crop_params := cropOpt,
      pad_params := some (padTop, padBottom, padLeft, padRight),
      result_rows := resultRows + padTop + padBottom,
      result_cols := resultCols + padLeft + padRight }
  else
    { crop_params := cropOpt, pad_params := none,
      result_rows := resultRows, result_cols := resultCols }

/-- Rebalancing arithmetic on one axis exactly as the specification words
it: `regain = |original combined crop on that axis| + 1`, split as evenly
as possible with the extra unit to the first side when odd, each side's
crop reduced by its portion, clamped so a side's crop never goes negative
with any unregainable deficit shifted to the other side. -/
def specPreventZeroPair (val1 val2 : ℤ) : ℤ × ℤ :=
  if (|val1 + val2| + 1) - (|val1 + val2| + 1) / 2 > val1 then
    (max (val1 - val1) 0,
     max (val2 - ((|val1 + val2| + 1) / 2 +
       (((|val1 + val2| + 1) - (|val1 + val2| + 1) / 2) - val1))) 0)
  else if (|val1 + val2| + 1) / 2 > val2 then
    (max (val1 - (((|val1 + val2| + 1) - (|val1 + val2| + 1) / 2) +
       ((|val1 + val2| + 1) / 2 - val2))) 0,
     max (val2 - val2) 0)
  else
    (max (val1 - ((|val1 + val2| + 1) - (|val1 + val2| + 1) / 2)) 0,
     max (val2 - (|val1 + val2| + 1) / 2) 0)

/-- The geometry dictionary returned by
`RandomResizedCrop.get_params_dependent_on_targets`. -/
structure RRCOut where
  crop_height : ℤ
  crop_width : ℤ
  h_start : ℚ
  w_start : ℚ

/-- The `1e-10` guard added to the offset denominators. -/
def rrcEps : ℚ := 1 / 10000000000

/-- The acceptance test of one rejection-sampling attempt:
`0 < width <= img.shape[1] and 0 < height <= img.shape[0]` for a
candidate `(width, height)`. -/
def rrcAccept (rows cols : ℤ) (wh : ℤ × ℤ) : Bool :=
  decide (0 < wh.1 ∧ wh.1 ≤ cols ∧ 0 < wh.2 ∧ wh.2 ≤ rows)

/-- The deterministic central-crop fallback of
`RandomResizedCrop.get_params_dependent_on_targets`, as `(height, width)`:
compare `in_ratio = cols / rows` against the aspect bounds and round the
fitted dimension. -/
def rrcFallback (rows cols : ℤ) (aRange : ℚ × ℚ) : ℤ × ℤ :=
  if (cols : ℚ) / (rows : ℚ) < min aRange.1 aRange.2 then
    (pythonRound ((cols : ℚ) / min aRange.1 aRange.2), cols)
  else if max aRange.1 aRange.2 < (cols : ℚ) / (rows : ℚ) then
    (rows, pythonRound ((rows : ℚ) * max aRange.1 aRange.2))
  else
    (rows, cols)

/-- `RandomResizedCrop.get_params_dependent_on_targets`. The candidate
`(width, height)` of each of the 10 attempts (computed in the source by
float `sqrt`/`exp`/`log` of uniform draws, i.e. by the external random
collaborator) is injected as the list `att`; the first accepted candidate
is used with the injected offset draws `i ∈ [0, rows - height]`,
`j ∈ [0, cols - width]`; if every attempt is rejected, the centered
fallback with offsets `(rows - height) // 2`, `(cols - width) // 2`. -/
def rrcParams (rows cols : ℤ) (aRange : ℚ × ℚ) (att : List (ℤ × ℤ)) (i j : ℤ) : RRCOut :=
  match att.find? (rrcAccept rows cols) with
  | some wh =>
      { crop_height := wh.2, crop_width := wh.1,
        h_start := (i : ℚ) / (((rows - wh.2 : ℤ) : ℚ) + rrcEps),
        w_start := (j : ℚ) / (((cols - wh.1 : ℤ) : ℚ) + rrcEps) }
  | none =>
      { crop_height := (rrcFallback rows cols aRange).1,
        crop_width := (rrcFallback rows cols aRange).2,
        h_start := ((Int.fdiv (rows - (rrcFallback rows cols aRange).1) 2 : ℤ) : ℚ) /
          (((rows - (rrcFallback rows cols aRange).1 : ℤ) : ℚ) + rrcEps),
        w_start := ((Int.fdiv (cols - (rrcFallback rows cols aRange).2) 2 : ℤ) : ℚ) /
          (((cols - (rrcFallback rows cols aRange).2 : ℤ) : ℚ) + rrcEps) }

/-- The fallback rectangle `(crop_height, crop_width)` exactly as claim C3
words it: if frame aspect `cols/rows < min(ratio)` then width = cols and
height = round(cols / min(ratio)); if `cols/rows > max(ratio)` then
height = rows and width = round(rows * max(ratio)); otherwise the whole
frame. -/
def specRRCFallback (rows cols : ℤ) (aRange : ℚ × ℚ) : ℤ × ℤ :=
  if (cols : ℚ) / (rows : ℚ) < min aRange.1 aRange.2 then
    (pythonRound ((cols : ℚ) / min aRange.1 aRange.2), cols)
  else if max aRange.1 aRange.2 < (cols : ℚ) / (rows : ℚ) then
    (rows, pythonRound ((rows : ℚ) * max aRange.1 aRange.2))
  else
    (rows, cols)

/-- The geometry dictionary returned by
`BBoxSafeRandomCrop.get_params_dependent_on_targets` on the non-empty
bbox branch. -/
structure BBSOut where
  h_start : ℚ
  w_start : ℚ
  crop_height : ℤ
  crop_width : ℤ

/-- One lower side of the expanded region: `x * random.random()`. -/
def bbsExpandLo (v r : ℚ) : ℚ := v * r

/-- One upper side of the expanded region: `x2 + (1 - x2) * random.random()`. -/
def bbsExpandHi (v r : ℚ) : ℚ := v + (1 - v) * r

/-- `BBoxSafeRandomCrop.get_params_dependent_on_targets`, non-empty bbox
branch. `(x, y, x2, y2)` is the eroded union rectangle returned by the
external `union_of_bboxes` collaborator, `r1..r4` the four
`random.random()` draws (for `bx`, `by`, `bx2`, `by2` respectively). -/
def bboxSafeParams (imgH imgW : ℤ) (x y x2 y2 r1 r2 r3 r4 : ℚ) : BBSOut :=
  let bx := bbsExpandLo x r1
  let byv := bbsExpandLo y r2
  let bx2 := bbsExpandHi x2 r3
  let by2 := bbsExpandHi y2 r4
  let bw := bx2 - bx
  let bh := by2 - byv
  { h_start := clipQ (if 1 ≤ bh then 0 else byv / (1 - bh)) 0 1,
    w_start := clipQ (if 1 ≤ bw then 0 else bx / (1 - bw)) 0 1,
    crop_height := if 1 ≤ bh then imgH else pyInt ((imgH : ℚ) * bh),
    crop_width := if 1 ≤ bw then imgW else pyInt ((imgW : ℚ) * bw) }

/-- Modelled from the spec: the pixel crop window derived from a crop
size and a normalized start offset is not under `src/` (it lives in the
crop functional module); section 4.3/8 of the specification fixes it as
`offset = floor(start * (size - crop))`, window `[offset, offset + crop)`. -/
def randomCropCoords1D (size crop : ℤ) (start : ℚ) : ℤ × ℤ :=
  (⌊start * ((size - crop : ℤ) : ℚ)⌋, ⌊start * ((size - crop : ℤ) : ℚ)⌋ + crop)

/-- The containment property claim C4 asserts: the sampled crop
rectangle's normalized bounds fully contain the eroded union rectangle
`(x, y, x2, y2)`. -/
def cropContainsUnion (imgH imgW : ℤ) (out : BBSOut) (x y x2 y2 : ℚ) : Prop :=
  ((randomCropCoords1D imgW out.crop_width out.w_start).1 : ℚ) / (imgW : ℚ) ≤ x ∧
    x2 ≤ ((randomCropCoords1D imgW out.crop_width out.w_start).2 : ℚ) / (imgW : ℚ) ∧
    ((randomCropCoords1D imgH out.crop_height out.h_start).1 : ℚ) / (imgH : ℚ) ≤ y ∧
    y2 ≤ ((randomCropCoords1D imgH out.crop_height out.h_start).2 : ℚ) / (imgH : ℚ)

/-- `RandomCropFromBorders.__init__`: the four border fractions are
stored unvalidated; construction never raises. -/
def randomCropFromBordersInit (cl cr ct cb : ℚ) : Option (ℚ × ℚ × ℚ × ℚ) :=
  some (cl, cr, ct, cb)

/-- `BBoxSafeRandomCrop.__init__`: `erosion_rate` is stored unvalidated;
construction never raises. -/
def bboxSafeRandomCropInit (er : ℚ) : Option ℚ :=
  some er

/-- `RandomSizedCrop.__init__`: `min_max_height` and the output size are
stored unvalidated; construction never raises. -/
def randomSizedCropInit (mn mx h w : ℤ) : Option ((ℤ × ℤ) × ℤ × ℤ) :=
  some ((mn, mx), h, w)

/-- `RandomCropNearBBox.__init__` on the already-tupled `max_part_shift`:
raises `ValueError` when `min(shift) < 0 or max(shift) > 1`. -/
def randomCropNearBBoxInit (s : ℚ × ℚ) : Option (ℚ × ℚ) :=
  if min s.1 s.2 < 0 ∨ 1 < max s.1 s.2 then none else some s

/-- `CropAndPad.__init__`: raises `ValueError` when `px` and `percent`
are both `None` or both set; otherwise stores them. -/
def cropAndPadInit (px : Option (List ℤ)) (percent : Option (List ℚ)) :
    Option (Option (List ℤ) × Option (List ℚ)) :=
  if px.isNone && percent.isNone then none
  else if px.isSome && percent.isSome then none
  else some (px, percent)

/-- `CropNonEmptyMaskIfExists.update_params` after `_preprocess_mask`:
`fg = some (y, x)` is the foreground pixel chosen by `random.choice`
over `np.argwhere(mask)` (present when `mask.any()`), `dx, dy` the
`random.randint(0, width - 1)` / `(0, height - 1)` jitter draws in the
foreground branch, or the `random.randint(0, mask_width - width)` /
`(0, mask_height - height)` offset draws in the background branch.
Returns `(x_min, x_max, y_min, y_max)`. -/
def cropNonEmptyMaskParams (maskHeight maskWidth height width : ℤ)
    (fg : Option (ℤ × ℤ)) (dx dy : ℤ) : ℤ × ℤ × ℤ × ℤ :=
  match fg with
  | some yx =>
      (clipI (yx.2 - dx) 0 (maskWidth - width),
       clipI (yx.2 - dx) 0 (maskWidth - width) + width,
       clipI (yx.1 - dy) 0 (maskHeight - height),
       clipI (yx.1 - dy) 0 (maskHeight - height) + height)
  | none =>
      (dx, dx + width, dy, dy + height)

/-- Upper bound of the `x_min` draw in
`RandomCropFromBorders.get_params_dependent_on_targets`:
`int(crop_left * img.shape[1])`. -/
def rcfbXMinHigh (cols : ℤ) (cl : ℚ) : ℤ := pyInt (cl * (cols : ℚ))

/-- Lower bound of the `x_max` draw:
`max(x_min + 1, int((1 - crop_right) * img.shape[1]))`. -/
def rcfbXMaxLow (cols xMin : ℤ) (cr : ℚ) : ℤ :=
  max (xMin + 1) (pyInt ((1 - cr) * (cols : ℚ)))

/-- Upper bound of the `y_min` draw: `int(crop_top * img.shape[0])`. -/
def rcfbYMinHigh (rows : ℤ) (ct : ℚ) : ℤ := pyInt (ct * (rows : ℚ))

/-- Lower bound of the `y_max` draw:
`max(y_min + 1, int((1 - crop_bottom) * img.shape[0]))`. -/
def rcfbYMaxLow (rows yMin : ℤ) (cb : ℚ) : ℤ :=
  max (yMin + 1) (pyInt ((1 - cb) * (rows : ℚ)))

/-- `round((bbox[3] - bbox[1]) * max_part_shift[0])` (resp. the width
analogue) in `RandomCropNearBBox.get_params_dependent_on_targets`: the
magnitude bound of the symmetric `randint(-shift, shift)` draws. -/
def rcnbShiftBound (shift lo hi : ℚ) : ℤ := pythonRound ((hi - lo) * shift)

/-- `RandomCropNearBBox.get_params_dependent_on_targets` given the
reference rectangle `(bx1, by1, bx2, by2)` and the four
`randint(-shift, shift)` draws (`d1` for `x_min`, `d2` for `x_max`, `d3`
for `y_min`, `d4` for `y_max`): only the minimum corners are clamped to
0. Returns `(x_min, x_max, y_min, y_max)`. -/
def randomCropNearBBoxParams (bx1 by1 bx2 by2 : ℚ) (d1 d2 d3 d4 : ℤ) : ℚ × ℚ × ℚ × ℚ :=
  (max 0 (bx1 - (d1 : ℚ)), bx2 + (d2 : ℚ), max 0 (by1 - (d3 : ℚ)), by2 + (d4 : ℚ))

/-- Claim C1 (code_bug evaluation): with a sampled spec of -100 on every
side (crop 100 px per side) on a 10x10 frame, `CropAndPad` returns the
crop rectangle `[94, 94, -85, -85]`, whose height and width are -179 —
far below the 1-pixel minimum the claim (and the class docstring)
guarantee. -/
theorem c1_crop_rect_eval :
    (cropAndPadParams (-100) (-100) (-100) (-100) 10 10).crop_params
        = some (94, 94, -85, -85) ∧
      (cropAndPadParams (-100) (-100) (-100) (-100) 10 10).result_rows = -179 ∧
      ¬ 1 ≤ (cropAndPadParams (-100) (-100) (-100) (-100) 10 10).result_rows := by
  decide

/-- Claim C2 (counterexample): on the specification's own example
(constant -6 on all sides of a 10x10 frame, so `val1 = val2 = 6` on each
axis) the code's rebalancing `__prevent_zero(6, 6, 10)` yields `(0, 1)`
(regain = 10 + 1 = 11, split 6/5), while the arithmetic the claim
describes (regain = |6 + 6| + 1 = 13, split 7/6) yields `(0, 0)`. -/
theorem c2_counterexample :
    preventZeroPair 6 6 10 = (0, 1) ∧ specPreventZeroPair 6 6 = (0, 0) ∧
      preventZeroPair 6 6 10 ≠ specPreventZeroPair 6 6 := by
  decide

/-- Claim C2 (amended): the regain on an axis is `|frame dimension| + 1`,
not `|combined crop| + 1`: the two shares subtracted by
`__prevent_zero(val1, val2, max_val)` always total `|max_val| + 1`, and on
the -6 / 10x10 example the regain 11 splits 6/5, leaving final per-side
crops top = 0, right = 1, bottom = 1, left = 0. -/
theorem c2_amended :
    (∀ v1 v2 m : ℤ,
        (preventZeroPair v1 v2 m).1 + (preventZeroPair v1 v2 m).2
          = v1 + v2 - (|m| + 1)) ∧
      preventZeroPair 6 6 10 = (0, 1) ∧
      preventZero 6 6 6 6 10 10 = (0, 1, 1, 0) := by
  refine ⟨?_, by decide, by decide⟩
  intro v1 v2 m
  have h0 : 0 ≤ |m| := abs_nonneg m
  unfold preventZeroPair pzRegain1 pzRegain2
  generalize |m| = a at h0 ⊢
  split_ifs <;> omega

/-- Claim C4 (counterexample): frame 10x10, eroded union rectangle
`(0, 0, 1/2, 11/20)`, all four draws 0 (all in [0,1)). Then
`bh = 11/20`, `crop_height = int(10 * 11/20) = 5`, `h_start = 0`, and the
crop's normalized y-extent `[0, 1/2]` does not contain the union's
`[0, 11/20]`: the `int()` truncation shaves half a pixel off. -/
theorem c4_counterexample :
    ¬ cropContainsUnion 10 10 (bboxSafeParams 10 10 0 0 (1 / 2) (11 / 20) 0 0 0 0)
        0 0 (1 / 2) (11 / 20) := by
  norm_num [cropContainsUnion, bboxSafeParams, bbsExpandLo, bbsExpandHi, clipQ, pyInt,
    randomCropCoords1D, min_def, max_def]

/-- When the expanded extent is below 1, the clipped start offset, scaled
back by the remaining fraction, recovers exactly the expanded region's
lower side (the clip into [0, 1] is inactive). -/
theorem clip_start_eq (b e : ℚ) (hb : 0 ≤ b) (he : e ≤ 1) (hlt : e - b < 1) :
    clipQ (b / (1 - (e - b))) 0 1 * (1 - (e - b)) = b := by
  have hpos : 0 < 1 - (e - b) := by linarith
  have h01 : b / (1 - (e - b)) ≤ 1 := by
    rw [div_le_one hpos]; linarith
  have h00 : 0 ≤ b / (1 - (e - b)) := div_nonneg hb hpos.le
  unfold clipQ
  rw [max_eq_left h00, min_eq_right h01]
  exact div_mul_cancel₀ b hpos.ne'

/-- Claim C4 (amended): the expanded region
`[bx, bx2] x [byv, by2]` always contains the eroded union rectangle, and
the real-valued crop geometry coincides with that region: when the
expanded extent is below 1 the start offset satisfies
`h_start * (1 - bh) = byv` (and symmetrically for x), and when the extent
reaches 1 the crop is the full frame dimension at offset 0. The integer
crop rectangle obtained after the `int()` truncations can fail the exact
containment (see the counterexample). -/
theorem c4_amended (imgH imgW : ℤ) (x y x2 y2 r1 r2 r3 r4 : ℚ)
    (hx0 : 0 ≤ x) (hxx : x ≤ x2) (hx1 : x2 ≤ 1)
    (hy0 : 0 ≤ y) (hyy : y ≤ y2) (hy1 : y2 ≤ 1)
    (hr1 : 0 ≤ r1) (hr1l : r1 < 1) (hr2 : 0 ≤ r2) (hr2l : r2 < 1)
    (hr3 : 0 ≤ r3) (hr3l : r3 < 1) (hr4 : 0 ≤ r4) (hr4l : r4 < 1) :
    (bbsExpandLo x r1 ≤ x ∧ x2 ≤ bbsExpandHi x2 r3 ∧
      bbsExpandLo y r2 ≤ y ∧ y2 ≤ bbsExpandHi y2 r4) ∧
    (bbsExpandHi y2 r4 - bbsExpandLo y r2 < 1 →
      (bboxSafeParams imgH imgW x y x2 y2 r1 r2 r3 r4).h_start *
        (1 - (bbsExpandHi y2 r4 - bbsExpandLo y r2)) = bbsExpandLo y r2) ∧
    (1 ≤ bbsExpandHi y2 r4 - bbsExpandLo y r2 →
      (bboxSafeParams imgH imgW x y x2 y2 r1 r2 r3 r4).crop_height = imgH ∧
        (bboxSafeParams imgH imgW x y x2 y2 r1 r2 r3 r4).h_start = 0) ∧
    (bbsExpandHi x2 r3 - bbsExpandLo x r1 < 1 →
      (bboxSafeParams imgH imgW x y x2 y2 r1 r2 r3 r4).w_start *
        (1 - (bbsExpandHi x2 r3 - bbsExpandLo x r1)) = bbsExpandLo x r1) ∧
    (1 ≤ bbsExpandHi x2 r3 - bbsExpandLo x r1 →
      (bboxSafeParams imgH imgW x y x2 y2 r1 r2 r3 r4).crop_width = imgW ∧
        (bboxSafeParams imgH imgW x y x2 y2 r1 r2 r3 r4).w_start = 0) := by
  have hlx : bbsExpandLo x r1 ≤ x := by
    unfold bbsExpandLo; exact mul_le_of_le_one_right hx0 hr1l.le
  have hly : bbsExpandLo y r2 ≤ y := by
    unfold bbsExpandLo; exact mul_le_of_le_one_right hy0 hr2l.le
  have hhx : x2 ≤ bbsExpandHi x2 r3 := by
    unfold bbsExpandHi
    have := mul_nonneg (sub_nonneg.mpr hx1) hr3
    linarith
  have hhy : y2 ≤ bbsExpandHi y2 r4 := by
    unfold bbsExpandHi
    have := mul_nonneg (sub_nonneg.mpr hy1) hr4
    linarith
  have hhx1 : bbsExpandHi x2 r3 ≤ 1 := by
    unfold bbsExpandHi
    have := mul_le_of_le_one_right (sub_nonneg.mpr hx1) hr3l.le
    linarith
  have hhy1 : bbsExpandHi y2 r4 ≤ 1 := by
    unfold bbsExpandHi
    have := mul_le_of_le_one_right (sub_nonneg.mpr hy1) hr4l.le
    linarith
  have hlx0 : 0 ≤ bbsExpandLo x r1 := mul_nonneg hx0 hr1
  have hly0 : 0 ≤ bbsExpandLo y r2 := mul_nonneg hy0 hr2
  have hbex : bbsExpandLo x r1 ≤ bbsExpandHi x2 r3 := le_trans hlx (le_trans hxx hhx)
  have hbey : bbsExpandLo y r2 ≤ bbsExpandHi y2 r4 := le_trans hly (le_trans hyy hhy)
  refine ⟨⟨hlx, hhx, hly, hhy⟩, ?_, ?_, ?_, ?_⟩
  · intro hlt
    simp only [bboxSafeParams, if_neg (not_le.mpr hlt)]
    exact clip_start_eq _ _ hly0 hhy1 hlt
  · intro hge
    simp only [bboxSafeParams, if_pos hge]
    refine ⟨trivial, ?_⟩
    unfold clipQ
    norm_num
  · intro hlt
    simp only [bboxSafeParams, if_neg (not_le.mpr hlt)]
    exact clip_start_eq _ _ hlx0 hhx1 hlt
  · intro hge
    simp only [bboxSafeParams, if_pos hge]
    refine ⟨trivial, ?_⟩
    unfold clipQ
    norm_num

/-- Claim C4 witness: frame 10x10, union rectangle `(0, 0, 1/2, 1/2)`,
all draws 0. -/
theorem c4_amended_witness :
    bbsExpandLo 0 0 ≤ (0 : ℚ) ∧ (1 / 2 : ℚ) ≤ bbsExpandHi (1 / 2) 0 ∧
      bbsExpandLo 0 0 ≤ (0 : ℚ) ∧ (1 / 2 : ℚ) ≤ bbsExpandHi (1 / 2) 0 :=
  (c4_amended 10 10 0 0 (1 / 2) (1 / 2) 0 0 0 0 (by norm_num) (by norm_num) (by norm_num)
    (by norm_num) (by norm_num) (by norm_num) (by norm_num) (by norm_num) (by norm_num)
    (by norm_num) (by norm_num) (by norm_num) (by norm_num) (by norm_num)).1

/-- Half-to-even rounding of a nonnegative rational is nonnegative. -/
theorem pythonRound_nonneg (q : ℚ) (h : 0 ≤ q) : 0 ≤ pythonRound q := by
  have hf : (0 : ℤ) ≤ ⌊q⌋ := Int.floor_nonneg.mpr h
  unfold pythonRound
  split_ifs <;> omega

/-- Half-to-even rounding of a rational strictly below the integer `n`
stays at most `n`. -/
theorem pythonRound_le (q : ℚ) (n : ℤ) (h : q < (n : ℚ)) : pythonRound q ≤ n := by
  have hf : ⌊q⌋ < n := Int.floor_lt.mpr h
  unfold pythonRound
  split_ifs <;> omega

/-- The fallback rectangle always fits in the frame (and is nonnegative)
when the frame is at least 1x1 and the aspect bounds are positive. -/
theorem rrcFallback_bounds (rows cols : ℤ) (aRange : ℚ × ℚ)
    (hr : 1 ≤ rows) (hc : 1 ≤ cols) (ha : 0 < min aRange.1 aRange.2) :
    0 ≤ (rrcFallback rows cols aRange).1 ∧ (rrcFallback rows cols aRange).1 ≤ rows ∧
      0 ≤ (rrcFallback rows cols aRange).2 ∧ (rrcFallback rows cols aRange).2 ≤ cols := by
  have hrQ : (0 : ℚ) < (rows : ℚ) := by exact_mod_cast lt_of_lt_of_le Int.zero_lt_one hr
  have hcQ : (0 : ℚ) < (cols : ℚ) := by exact_mod_cast lt_of_lt_of_le Int.zero_lt_one hc
  have hmaxpos : 0 < max aRange.1 aRange.2 := lt_of_lt_of_le ha (min_le_max)
  unfold rrcFallback
  split_ifs with h1 h2
  · have hlt : (cols : ℚ) / min aRange.1 aRange.2 < (rows : ℚ) := by
      rw [div_lt_iff₀ ha]
      have h1' : (cols : ℚ) < min aRange.1 aRange.2 * (rows : ℚ) := (div_lt_iff₀ hrQ).mp h1
      linarith
    exact ⟨pythonRound_nonneg _ (div_nonneg hcQ.le ha.le), pythonRound_le _ _ hlt,
      by omega, le_refl _⟩
  · have hlt : (rows : ℚ) * max aRange.1 aRange.2 < (cols : ℚ) := by
      have h2' : max aRange.1 aRange.2 * (rows : ℚ) < (cols : ℚ) := (lt_div_iff₀ hrQ).mp h2
      linarith
    exact ⟨by omega, le_refl _,
      pythonRound_nonneg _ (mul_nonneg hrQ.le hmaxpos.le), pythonRound_le _ _ hlt⟩
  · exact ⟨by omega, le_refl _, by omega, le_refl _⟩

/-- Claim C3: whenever every rejection-sampling attempt is rejected,
`RandomResizedCrop` returns exactly the deterministic centered fallback:
the `(height, width)` of `specRRCFallback` (the claim's case formulas)
with offsets `(rows - height) // 2` and `(cols - width) // 2` normalized
by the guarded denominators. -/
theorem c3_fallback_exact (rows cols : ℤ) (aRange : ℚ × ℚ) (att : List (ℤ × ℤ)) (i j : ℤ)
    (hall : ∀ wh ∈ att, rrcAccept rows cols wh = false) :
    rrcParams rows cols aRange att i j =
      { crop_height := (specRRCFallback rows cols aRange).1,
        crop_width := (specRRCFallback rows cols aRange).2,
        h_start := ((Int.fdiv (rows - (specRRCFallback rows cols aRange).1) 2 : ℤ) : ℚ) /
          (((rows - (specRRCFallback rows cols aRange).1 : ℤ) : ℚ) + rrcEps),
        w_start := ((Int.fdiv (cols - (specRRCFallback rows cols aRange).2) 2 : ℤ) : ℚ) /
          (((cols - (specRRCFallback rows cols aRange).2 : ℤ) : ℚ) + rrcEps) } := by
  have hn : att.find? (rrcAccept rows cols) = none :=
    List.find?_eq_none.mpr fun x hx => by simp [hall x hx]
  have hspec : rrcFallback rows cols aRange = specRRCFallback rows cols aRange := rfl
  simp only [rrcParams, hn, hspec]

/-- Claim C3 witness: frame 50x100 with aspect range (3, 4) and ten
rejected candidates falls back to width = 100,
height = round(100 / 3) = 33, centered. -/
theorem c3_fallback_exact_witness :
    rrcParams 50 100 (3, 4) (List.replicate 10 (200, 200)) 0 0 =
      { crop_height := (specRRCFallback 50 100 (3, 4)).1,
        crop_width := (specRRCFallback 50 100 (3, 4)).2,
        h_start := ((Int.fdiv (50 - (specRRCFallback 50 100 (3, 4)).1) 2 : ℤ) : ℚ) /
          (((50 - (specRRCFallback 50 100 (3, 4)).1 : ℤ) : ℚ) + rrcEps),
        w_start := ((Int.fdiv (100 - (specRRCFallback 50 100 (3, 4)).2) 2 : ℤ) : ℚ) /
          (((100 - (specRRCFallback 50 100 (3, 4)).2 : ℤ) : ℚ) + rrcEps) } :=
  c3_fallback_exact 50 100 (3, 4) (List.replicate 10 (200, 200)) 0 0 (by decide)

/-- Claim C9 (counterexample): on a 1x1 frame with aspect range (3, 4)
and ten rejected attempts (the acceptance test genuinely rejects the
candidate (2, 2)), the fallback returns crop_height = round(1/3) = 0,
violating `0 < crop_height`. -/
theorem c9_counterexample :
    (1 : ℤ) ≤ 1 ∧ (0 : ℚ) < min (3 : ℚ) 4 ∧
      (∀ wh ∈ List.replicate 10 ((2, 2) : ℤ × ℤ), rrcAccept 1 1 wh = false) ∧
      (rrcParams 1 1 (3, 4) (List.replicate 10 (2, 2)) 0 0).crop_height = 0 := by
  have hf : (List.replicate 10 ((2, 2) : ℤ × ℤ)).find? (rrcAccept 1 1) = none := by decide
  refine ⟨by decide, by norm_num, by decide, ?_⟩
  simp only [rrcParams, hf]
  norm_num [rrcFallback, pythonRound, min_def, max_def]

/-- Claim C9 (amended): every descriptor satisfies
`0 ≤ crop_height ≤ rows` and `0 ≤ crop_width ≤ cols` (the crop always
fits inside the frame), and on the rejection-sampling acceptance path the
dimensions are moreover strictly positive; on the fallback path they can
be 0. -/
theorem c9_amended (rows cols : ℤ) (aRange : ℚ × ℚ) (att : List (ℤ × ℤ)) (i j : ℤ)
    (hr : 1 ≤ rows) (hc : 1 ≤ cols) (ha : 0 < min aRange.1 aRange.2) :
    (0 ≤ (rrcParams rows cols aRange att i j).crop_height ∧
      (rrcParams rows cols aRange att i j).crop_height ≤ rows ∧
      0 ≤ (rrcParams rows cols aRange att i j).crop_width ∧
      (rrcParams rows cols aRange att i j).crop_width ≤ cols) ∧
    ((att.find? (rrcAccept rows cols)).isSome = true →
      0 < (rrcParams rows cols aRange att i j).crop_height ∧
      0 < (rrcParams rows cols aRange att i j).crop_width) := by
  cases hfind : att.find? (rrcAccept rows cols) with
  | some wh =>
      have hacc : rrcAccept rows cols wh = true := List.find?_some hfind
      have h4 : 0 < wh.1 ∧ wh.1 ≤ cols ∧ 0 < wh.2 ∧ wh.2 ≤ rows := by
        simpa [rrcAccept] using hacc
      simp only [rrcParams, hfind]
      exact ⟨⟨h4.2.2.1.le, h4.2.2.2, h4.1.le, h4.2.1⟩, fun _ => ⟨h4.2.2.1, h4.1⟩⟩
  | none =>
      have hb := rrcFallback_bounds rows cols aRange hr hc ha
      simp only [rrcParams, hfind]
      exact ⟨⟨hb.1, hb.2.1, hb.2.2.1, hb.2.2.2⟩, by simp⟩

/-- Claim C9 witness: a 2x2 frame with aspect range (1, 1) and no
accepted attempt still yields a descriptor inside the frame. -/
theorem c9_amended_witness :
    0 ≤ (rrcParams 2 2 (1, 1) [] 0 0).crop_height ∧
      (rrcParams 2 2 (1, 1) [] 0 0).crop_height ≤ 2 ∧
      0 ≤ (rrcParams 2 2 (1, 1) [] 0 0).crop_width ∧
      (rrcParams 2 2 (1, 1) [] 0 0).crop_width ≤ 2 :=
  (c9_amended 2 2 (1, 1) [] 0 0 (by decide) (by decide) (by decide)).1

/-- Truncation toward zero agrees with the floor on nonnegative inputs. -/
theorem pyInt_of_nonneg (q : ℚ) (h : 0 ≤ q) : pyInt q = ⌊q⌋ := by
  unfold pyInt
  rw [if_neg (not_lt.mpr h)]

/-- Claim C5 (counterexample): construction does not reject out-of-domain
parameters: `RandomCropFromBorders` accepts border fractions of 2,
`BBoxSafeRandomCrop` accepts `erosion_rate = 5`, and `RandomSizedCrop`
accepts `min_max_height = (10, 5)` with min > max — none of them raises. -/
theorem c5_counterexample :
    (randomCropFromBordersInit 2 2 2 2).isSome = true ∧
      (bboxSafeRandomCropInit 5).isSome = true ∧
      (randomSizedCropInit 10 5 32 32).isSome = true :=
  ⟨rfl, rfl, rfl⟩

/-- Claim C5 (amended): among the four strategies the claim names, only
`RandomCropNearBBox` validates at construction time (it rejects exactly
when `min(max_part_shift) < 0` or `max(max_part_shift) > 1`);
`RandomCropFromBorders`, `BBoxSafeRandomCrop` and `RandomSizedCrop`
accept every parameter value at construction. -/
theorem c5_amended :
    (∀ cl cr ct cb : ℚ, (randomCropFromBordersInit cl cr ct cb).isSome = true) ∧
      (∀ er : ℚ, (bboxSafeRandomCropInit er).isSome = true) ∧
      (∀ mn mx h w : ℤ, (randomSizedCropInit mn mx h w).isSome = true) ∧
      (∀ s : ℚ × ℚ, (randomCropNearBBoxInit s).isSome = true ↔
        ¬ (min s.1 s.2 < 0 ∨ 1 < max s.1 s.2)) := by
  refine ⟨fun _ _ _ _ => rfl, fun _ => rfl, fun _ _ _ _ => rfl, fun s => ?_⟩
  unfold randomCropNearBBoxInit
  split_ifs with h
  · exact iff_of_false (by simp) (not_not_intro h)
  · exact iff_of_true (by simp) h

/-- A clipped value lands in the clip interval. -/
theorem clipI_mem (v lo hi : ℤ) (h : lo ≤ hi) : lo ≤ clipI v lo hi ∧ clipI v lo hi ≤ hi := by
  unfold clipI
  simp only [min_def, max_def]
  split_ifs <;> omega

/-- One axis of the mask-guided crop placement: subtracting a jitter in
`[0, crop - 1]` from a pixel coordinate inside the frame and clipping the
result into `[0, size - crop]` yields an offset whose `crop`-wide window
still contains the pixel. -/
theorem clip_jitter_contains (size crop p d : ℤ) (hcs : crop ≤ size)
    (hp0 : 0 ≤ p) (hps : p < size) (hd0 : 0 ≤ d) (hd1 : d ≤ crop - 1) :
    clipI (p - d) 0 (size - crop) ≤ p ∧ p < clipI (p - d) 0 (size - crop) + crop := by
  unfold clipI
  simp only [min_def, max_def]
  split_ifs <;> omega

/-- Claim C6: with a preprocessed mask of size `maskH x maskW`, crop size
`height x width` fitting the mask, a foreground pixel `(y, x)` inside the
mask and jitter draws in their documented ranges, the returned rectangle
has a valid offset (`0 <= x_min <= maskW - width`, same for y), spans
exactly the crop size, and contains the sampled foreground pixel; with no
foreground pixel, the offsets are exactly the uniform draws over all
valid offsets `[0, maskW - width] x [0, maskH - height]`. -/
theorem c6_mask_crop (maskH maskW height width x y dx dy ex ey : ℤ)
    (_hh1 : 1 ≤ height) (hhH : height ≤ maskH) (_hw1 : 1 ≤ width) (hwW : width ≤ maskW)
    (hx0 : 0 ≤ x) (hxW : x < maskW) (hy0 : 0 ≤ y) (hyH : y < maskH)
    (hdx0 : 0 ≤ dx) (hdx1 : dx ≤ width - 1) (hdy0 : 0 ≤ dy) (hdy1 : dy ≤ height - 1)
    (_hex0 : 0 ≤ ex) (_hex1 : ex ≤ maskW - width) (_hey0 : 0 ≤ ey) (_hey1 : ey ≤ maskH - height) :
    (0 ≤ (cropNonEmptyMaskParams maskH maskW height width (some (y, x)) dx dy).1 ∧
      (cropNonEmptyMaskParams maskH maskW height width (some (y, x)) dx dy).1 ≤ maskW - width ∧
      (cropNonEmptyMaskParams maskH maskW height width (some (y, x)) dx dy).1 ≤ x ∧
      x < (cropNonEmptyMaskParams maskH maskW height width (some (y, x)) dx dy).2.1 ∧
      (cropNonEmptyMaskParams maskH maskW height width (some (y, x)) dx dy).2.1 =
        (cropNonEmptyMaskParams maskH maskW height width (some (y, x)) dx dy).1 + width ∧
      0 ≤ (cropNonEmptyMaskParams maskH maskW height width (some (y, x)) dx dy).2.2.1 ∧
      (cropNonEmptyMaskParams maskH maskW height width (some (y, x)) dx dy).2.2.1 ≤
        maskH - height ∧
      (cropNonEmptyMaskParams maskH maskW height width (some (y, x)) dx dy).2.2.1 ≤ y ∧
      y < (cropNonEmptyMaskParams maskH maskW height width (some (y, x)) dx dy).2.2.2 ∧
      (cropNonEmptyMaskParams maskH maskW height width (some (y, x)) dx dy).2.2.2 =
        (cropNonEmptyMaskParams maskH maskW height width (some (y, x)) dx dy).2.2.1 + height) ∧
    cropNonEmptyMaskParams maskH maskW height width none ex ey =
      (ex, ex + width, ey, ey + height) := by
  have hx := clip_jitter_contains maskW width x dx hwW hx0 hxW hdx0 hdx1
  have hy := clip_jitter_contains maskH height y dy hhH hy0 hyH hdy0 hdy1
  have hxb := clipI_mem (x - dx) 0 (maskW - width) (by omega)
  have hyb := clipI_mem (y - dy) 0 (maskH - height) (by omega)
  simp only [cropNonEmptyMaskParams]
  refine ⟨⟨hxb.1, hxb.2, hx.1, hx.2, ?_, hyb.1, hyb.2, hy.1, hy.2, ?_⟩, ?_⟩ <;> trivial

/-- Claim C6 witness: a 10x10 mask, 4x4 crop, foreground pixel (5, 5),
jitter draws 3, background draws 2. -/
theorem c6_mask_crop_witness :
    cropNonEmptyMaskParams 10 10 4 4 none 2 2 = (2, 6, 2, 6) :=
  (c6_mask_crop 10 10 4 4 5 5 3 3 2 2 (by decide) (by decide) (by decide) (by decide)
    (by decide) (by decide) (by decide) (by decide) (by decide) (by decide) (by decide)
    (by decide) (by decide) (by decide) (by decide) (by decide)).2

/-- Claim C7: for border fractions in [0, 1) and a frame of at least 1x1,
neither random-integer range of `RandomCropFromBorders` is empty (the
`x_min` range starts at 0 below a nonnegative bound, and the lower bound
of the `x_max` draw never exceeds `cols`; same for y), and every draw
combination satisfies `x_max > x_min` and `y_max > y_min`. -/
theorem c7_borders_safe (rows cols : ℤ) (cl cr ct cb : ℚ) (xMin xMax yMin yMax : ℤ)
    (hrows : 1 ≤ rows) (hcols : 1 ≤ cols)
    (hcl0 : 0 ≤ cl) (hcl1 : cl < 1) (hcr0 : 0 ≤ cr) (hcr1 : cr < 1)
    (hct0 : 0 ≤ ct) (hct1 : ct < 1) (hcb0 : 0 ≤ cb) (hcb1 : cb < 1)
    (_hx1 : 0 ≤ xMin) (hx2 : xMin ≤ rcfbXMinHigh cols cl)
    (hx3 : rcfbXMaxLow cols xMin cr ≤ xMax) (_hx4 : xMax ≤ cols)
    (_hy1 : 0 ≤ yMin) (hy2 : yMin ≤ rcfbYMinHigh rows ct)
    (hy3 : rcfbYMaxLow rows yMin cb ≤ yMax) (_hy4 : yMax ≤ rows) :
    0 ≤ rcfbXMinHigh cols cl ∧ rcfbXMaxLow cols xMin cr ≤ cols ∧
      0 ≤ rcfbYMinHigh rows ct ∧ rcfbYMaxLow rows yMin cb ≤ rows ∧
      xMin < xMax ∧ yMin < yMax := by
  have hcQ : (0 : ℚ) < (cols : ℚ) := by exact_mod_cast lt_of_lt_of_le Int.zero_lt_one hcols
  have hrQ : (0 : ℚ) < (rows : ℚ) := by exact_mod_cast lt_of_lt_of_le Int.zero_lt_one hrows
  have hxhigh : rcfbXMinHigh cols cl ≤ cols - 1 := by
    unfold rcfbXMinHigh
    rw [pyInt_of_nonneg _ (mul_nonneg hcl0 hcQ.le)]
    have hlt : cl * (cols : ℚ) < (cols : ℚ) := by nlinarith
    have h2 : ⌊cl * (cols : ℚ)⌋ < cols := Int.floor_lt.mpr hlt
    omega
  have hyhigh : rcfbYMinHigh rows ct ≤ rows - 1 := by
    unfold rcfbYMinHigh
    rw [pyInt_of_nonneg _ (mul_nonneg hct0 hrQ.le)]
    have hlt : ct * (rows : ℚ) < (rows : ℚ) := by nlinarith
    have h2 : ⌊ct * (rows : ℚ)⌋ < rows := Int.floor_lt.mpr hlt
    omega
  have hxmaxlow : rcfbXMaxLow cols xMin cr ≤ cols := by
    unfold rcfbXMaxLow
    have h1 : xMin + 1 ≤ cols := by omega
    have h2 : pyInt ((1 - cr) * (cols : ℚ)) ≤ cols := by
      rw [pyInt_of_nonneg _ (mul_nonneg (by linarith) hcQ.le)]
      have hle : (1 - cr) * (cols : ℚ) ≤ (cols : ℚ) := by nlinarith
      have h3 := Int.floor_le_floor hle
      simpa using h3
    exact max_le h1 h2
  have hymaxlow : rcfbYMaxLow rows yMin cb ≤ rows := by
    unfold rcfbYMaxLow
    have h1 : yMin + 1 ≤ rows := by omega
    have h2 : pyInt ((1 - cb) * (rows : ℚ)) ≤ rows := by
      rw [pyInt_of_nonneg _ (mul_nonneg (by linarith) hrQ.le)]
      have hle : (1 - cb) * (rows : ℚ) ≤ (rows : ℚ) := by nlinarith
      have h3 := Int.floor_le_floor hle
      simpa using h3
    exact max_le h1 h2
  have hx0 : 0 ≤ rcfbXMinHigh cols cl := by
    unfold rcfbXMinHigh
    rw [pyInt_of_nonneg _ (mul_nonneg hcl0 hcQ.le)]
    exact Int.floor_nonneg.mpr (mul_nonneg hcl0 hcQ.le)
  have hy0 : 0 ≤ rcfbYMinHigh rows ct := by
    unfold rcfbYMinHigh
    rw [pyInt_of_nonneg _ (mul_nonneg hct0 hrQ.le)]
    exact Int.floor_nonneg.mpr (mul_nonneg hct0 hrQ.le)
  have hxlo : xMin + 1 ≤ rcfbXMaxLow cols xMin cr := by
    unfold rcfbXMaxLow
    exact le_max_left _ _
  have hylo : yMin + 1 ≤ rcfbYMaxLow rows yMin cb := by
    unfold rcfbYMaxLow
    exact le_max_left _ _
  exact ⟨hx0, hxmaxlow, hy0, hymaxlow, by omega, by omega⟩

/-- Claim C7 witness: a 10x10 frame with all border fractions 1/10 and
the draws x_min = y_min = 1, x_max = y_max = 9. -/
theorem c7_borders_safe_witness :
    0 ≤ rcfbXMinHigh 10 (1 / 10) ∧ rcfbXMaxLow 10 1 (1 / 10) ≤ 10 ∧
      0 ≤ rcfbYMinHigh 10 (1 / 10) ∧ rcfbYMaxLow 10 1 (1 / 10) ≤ 10 ∧
      (1 : ℤ) < 9 ∧ (1 : ℤ) < 9 :=
  c7_borders_safe 10 10 (1 / 10) (1 / 10) (1 / 10) (1 / 10) 1 9 1 9
    (by norm_num) (by norm_num) (by norm_num) (by norm_num) (by norm_num) (by norm_num)
    (by norm_num) (by norm_num) (by norm_num) (by norm_num) (by norm_num)
    (by norm_num [rcfbXMinHigh, pyInt])
    (by norm_num [rcfbXMaxLow, pyInt, max_def]) (by norm_num) (by norm_num)
    (by norm_num [rcfbYMinHigh, pyInt])
    (by norm_num [rcfbYMaxLow, pyInt, max_def]) (by norm_num)

/-- Claim C8: `CropAndPad` construction succeeds exactly when exactly one
of the pixel and fractional specifications is set, and fails (raises at
construction time) when both or neither is set. -/
theorem c8_init_exclusive (px : Option (List ℤ)) (percent : Option (List ℚ)) :
    (cropAndPadInit px percent).isSome = true ↔
      ((px.isSome = true ∧ percent.isSome = false) ∨
        (px.isSome = false ∧ percent.isSome = true)) := by
  cases px <;> cases percent <;> simp [cropAndPadInit]

/-- Claim C10: with `max_part_shift = (0, 0)` both shift magnitude bounds
round to 0, every admissible `randint(-0, 0)` draw is 0, and the sampled
rectangle is deterministically `(max(0, x1), x2, max(0, y1), y2)`: minimum
corners clamped at 0, maximum corners returned unchanged. -/
theorem c10_zero_shift (bx1 by1 bx2 by2 : ℚ) (d1 d2 d3 d4 : ℤ)
    (h1 : -(rcnbShiftBound 0 bx1 bx2) ≤ d1) (h1h : d1 ≤ rcnbShiftBound 0 bx1 bx2)
    (h2 : -(rcnbShiftBound 0 bx1 bx2) ≤ d2) (h2h : d2 ≤ rcnbShiftBound 0 bx1 bx2)
    (h3 : -(rcnbShiftBound 0 by1 by2) ≤ d3) (h3h : d3 ≤ rcnbShiftBound 0 by1 by2)
    (h4 : -(rcnbShiftBound 0 by1 by2) ≤ d4) (h4h : d4 ≤ rcnbShiftBound 0 by1 by2) :
    randomCropNearBBoxParams bx1 by1 bx2 by2 d1 d2 d3 d4 =
      (max 0 bx1, bx2, max 0 by1, by2) := by
  have hpr : pythonRound 0 = 0 := by norm_num [pythonRound]
  have hw : rcnbShiftBound 0 bx1 bx2 = 0 := by
    unfold rcnbShiftBound
    rw [mul_zero]
    exact hpr
  have hh : rcnbShiftBound 0 by1 by2 = 0 := by
    unfold rcnbShiftBound
    rw [mul_zero]
    exact hpr
  rw [hw] at h1 h1h h2 h2h
  rw [hh] at h3 h3h h4 h4h
  have hd1 : d1 = 0 := by omega
  have hd2 : d2 = 0 := by omega
  have hd3 : d3 = 0 := by omega
  have hd4 : d4 = 0 := by omega
  subst hd1 hd2 hd3 hd4
  simp [randomCropNearBBoxParams]

/-- Claim C10 witness: reference rectangle (-1, 2, 3, 4) with zero
shifts. -/
theorem c10_zero_shift_witness :
    randomCropNearBBoxParams (-1) 2 3 4 0 0 0 0 =
      (max 0 (-1 : ℚ), 3, max 0 (2 : ℚ), 4) :=
  c10_zero_shift (-1) 2 3 4 0 0 0 0
    (by norm_num [rcnbShiftBound, pythonRound]) (by norm_num [rcnbShiftBound, pythonRound])
    (by norm_num [rcnbShiftBound, pythonRound]) (by norm_num [rcnbShiftBound, pythonRound])
    (by norm_num [rcnbShiftBound, pythonRound]) (by norm_num [rcnbShiftBound, pythonRound])
    (by norm_num [rcnbShiftBound, pythonRound]) (by norm_num [rcnbShiftBound, pythonRound])
